import Mathlib

/-!
Palladium virtual machine: instruction semantics.

A shallow embedding of `include/Instruction.h`.  Every instruction of the
source is a class template over the machine type `VM` with one method
`execute(VM *vm) -> InstructionResult`.  Here each `execute` is a function
from a machine state to `Option Outcome`:

* `some ⟨result, vm⟩` : `execute` finished with `result` (the `ResultOr<bool>`
  it returns, or the failure that one of the machine operations it calls
  signalled) and left the machine in state `vm`;
* `none` : the source indexes the register container outside its bounds, which
  the source does not check; no behaviour is attributed to that case.

The machine type itself (`VM`, `VMType`, `ResultOr`, `add`, ...) lives in
headers that are not part of the sources at hand; those parts are modelled
from the specification and are marked as such.
-/

namespace Palladium

/-! ## Value model -/

/-- Modelled from the spec: the error taxonomy of section 7 (`Util.h`, which
declares `ResultOr` and `err`, is missing).  The source builds errors from a
text message with `err("...")`; only the kind of the failure is kept. -/
inductive VMError
  | TypeMismatch
  | UndefinedFunction
  | InsufficientRegisters
  | IndexOutOfRange
  | StackUnderflow
  | ArithmeticError
  deriving DecidableEq, Repr

/-- The type `InstructionResult = ResultOr<bool>`: either a boolean or an error. -/
inductive InstructionResult
  | ok (value : Bool)
  | err (e : VMError)
  deriving DecidableEq, Repr

/-- Modelled from the spec: `VMPrimitive` (declared in the missing `VMType.h`).
The instruction set reads primitives as `int` (`is_vm_type<int>`) and as
`std::string` (`vm_type_get<std::string>`); these are the two scalar kinds the
model keeps.  Integers are unbounded: the spec defines `add` as "the numeric
sum". -/
inductive VMPrimitive
  | int (n : Int)
  | str (s : String)
  deriving DecidableEq, Repr

/-- Modelled from the spec: `VMType` (declared in the missing `VMType.h`), the
tagged union of a primitive and a struct.  A struct is "an ordered,
fixed-capacity sequence of field slots, each slot itself a Value". -/
inductive VMType
  | primitive (p : VMPrimitive)
  | struct (capacity : Nat) (fields : List VMType)

mutual
/-- Boolean equality test on values. -/
def VMType.beq : VMType → VMType → Bool
  | .primitive p, .primitive q => decide (p = q)
  | .struct c fs, .struct d gs => decide (c = d) && VMType.beqList fs gs
  | _, _ => false
/-- Boolean equality test on lists of values. -/
def VMType.beqList : List VMType → List VMType → Bool
  | [], [] => true
  | a :: as, b :: bs => VMType.beq a b && VMType.beqList as bs
  | _, _ => false
end

mutual
theorem VMType.beq_iff : ∀ a b : VMType, VMType.beq a b = true ↔ a = b
  | .primitive p, .primitive q => by simp [VMType.beq]
  | .struct c fs, .struct d gs => by
      simp [VMType.beq, VMType.beqList_iff fs gs]
  | .primitive _, .struct _ _ => by simp [VMType.beq]
  | .struct _ _, .primitive _ => by simp [VMType.beq]
theorem VMType.beqList_iff :
    ∀ as bs : List VMType, VMType.beqList as bs = true ↔ as = bs
  | [], [] => by simp [VMType.beqList]
  | a :: as, b :: bs => by
      simp [VMType.beqList, VMType.beq_iff a b, VMType.beqList_iff as bs]
  | [], _ :: _ => by simp [VMType.beqList]
  | _ :: _, [] => by simp [VMType.beqList]
end

instance : DecidableEq VMType := fun a b =>
  decidable_of_iff (VMType.beq a b = true) (VMType.beq_iff a b)

/-- Position of the alternative a primitive holds. -/
def VMPrimitive.index : VMPrimitive → Nat
  | .int _ => 0
  | .str _ => 1

/-- Modelled from the spec: `operator<` on `VMPrimitive` (missing `VMType.h`).
"Primitives support equality and a total order": two integers compare
numerically, two texts lexicographically, and values of different kinds by
the position of their kind. -/
def VMPrimitive.lt : VMPrimitive → VMPrimitive → Bool
  | .int a, .int b => decide (a < b)
  | .str a, .str b => decide (a < b)
  | a, b => decide (a.index < b.index)

/-- Modelled from the spec: `operator>` on `VMPrimitive`. -/
def VMPrimitive.gt (a b : VMPrimitive) : Bool := VMPrimitive.lt b a

/-- Modelled from the spec: `operator==` on `VMPrimitive`. -/
def VMPrimitive.eq (a b : VMPrimitive) : Bool := decide (a = b)

/-- Modelled from the spec: `operator!=` on `VMPrimitive`. -/
def VMPrimitive.ne (a b : VMPrimitive) : Bool := !(VMPrimitive.eq a b)

/-- Modelled from the spec: `operator<=` on `VMPrimitive`. -/
def VMPrimitive.le (a b : VMPrimitive) : Bool := !(VMPrimitive.lt b a)

/-- Modelled from the spec: `operator>=` on `VMPrimitive`. -/
def VMPrimitive.ge (a b : VMPrimitive) : Bool := !(VMPrimitive.lt a b)

/-- The order on primitives that `operator<` decides. -/
instance : LT VMPrimitive := ⟨fun a b => VMPrimitive.lt a b = true⟩

/-- The order on primitives that `operator<=` decides. -/
instance : LE VMPrimitive := ⟨fun a b => VMPrimitive.le a b = true⟩

instance (a b : VMPrimitive) : Decidable (a < b) :=
  inferInstanceAs (Decidable (VMPrimitive.lt a b = true))

instance (a b : VMPrimitive) : Decidable (a ≤ b) :=
  inferInstanceAs (Decidable (VMPrimitive.le a b = true))

/-- Modelled from the spec: `is_vm_type<int>` (missing `VMType.h`): the value
is a primitive holding an integer. -/
def is_vm_type_int : VMType → Bool
  | .primitive (.int _) => true
  | _ => false

/-- Modelled from the spec: `vm_type_get<int>` (missing `VMType.h`): the
integer a value holds, a TypeMismatch otherwise. -/
def vm_type_get_int : VMType → Except VMError Int
  | .primitive (.int n) => .ok n
  | _ => .error .TypeMismatch

/-- Modelled from the spec: `vm_type_get<std::string>` (missing `VMType.h`):
the text a value holds, a TypeMismatch otherwise. -/
def vm_type_get_string : VMType → Except VMError String
  | .primitive (.str s) => .ok s
  | _ => .error .TypeMismatch

/-- The method `ResultOr<T>::result_or(d)`: the result, or `d` on an error. -/
def result_or {α : Type} (r : Except VMError α) (d : α) : α :=
  match r with
  | .ok a => a
  | .error _ => d

/-- Modelled from the spec: `add` (missing `VMType.h`): "defined only between
two numeric primitives; returns the numeric sum.  Fails with a TypeMismatch
error if either operand is a struct or a non-numeric primitive." -/
def add : VMType → VMType → Except VMError VMType
  | .primitive (.int a), .primitive (.int b) => .ok (.primitive (.int (a + b)))
  | _, _ => .error .TypeMismatch

/-- Modelled from the spec: `to_string` (missing `VMType.h`): "converts a
primitive to display text; fails with a TypeMismatch error when given a
struct directly". -/
def to_string : VMType → Except VMError String
  | .primitive (.int n) => .ok (toString n)
  | .primitive (.str s) => .ok s
  | .struct _ _ => .error .TypeMismatch

/-! ## Machine state -/

/-- Modelled from the spec: a call frame, "a saved snapshot of the register
file plus the return program counter, captured at call time". -/
structure Frame where
  registers : List VMType
  pc : Nat
  deriving DecidableEq

/-- Modelled from the spec: an entry of the function table, "(entry address:
program-counter value, formal argument count)".  The spec puts no bound on
the argument count. -/
structure FunctionEntry where
  address : Nat
  argument_count : Nat
  deriving DecidableEq, Repr

/-- Modelled from the spec: the machine state (the class `VM` is missing):
register file, operand stack (top first), call stack (top first), function
table, program counter, and the text written to the output sink so far. -/
structure VM where
  registers : List VMType
  stack : List VMType
  call_stack : List Frame
  functions : List (String × FunctionEntry)
  pc : Nat
  output : List String
  deriving DecidableEq

/-- What one call of `execute` leaves behind: the result and the machine. -/
structure Outcome where
  result : InstructionResult
  vm : VM
  deriving DecidableEq

/-- Read access `registers()[i]`; `none` outside the register file. -/
def VM.reg (vm : VM) (i : Nat) : Option VMType := vm.registers[i]?

/-- Write access `registers()[i] = v`; `none` outside the register file. -/
def VM.set_reg (vm : VM) (i : Nat) (v : VMType) : Option VM :=
  if i < vm.registers.length then
    some { vm with registers := vm.registers.set i v }
  else none

/-- Read access `registers[index]` with an `int` index, which the subscript
converts to an unsigned size: a negative index is outside the register file. -/
def VM.reg_int (vm : VM) (index : Int) : Option VMType :=
  if 0 ≤ index then vm.reg index.toNat else none

/-- Write access `registers[index] = v` with an `int` index. -/
def VM.set_reg_int (vm : VM) (index : Int) (v : VMType) : Option VM :=
  if 0 ≤ index then vm.set_reg index.toNat v else none

/-- Modelled from the spec: `VM::inc_pc` (class `VM` is missing): pc += 1. -/
def VM.inc_pc (vm : VM) : VM := { vm with pc := vm.pc + 1 }

/-- Modelled from the spec: `VM::set_pc` (class `VM` is missing): pc := target. -/
def VM.set_pc (vm : VM) (target : Nat) : VM := { vm with pc := target }

/-- Modelled from the spec: `VM::stack_push` (class `VM` is missing). -/
def VM.stack_push (vm : VM) (v : VMType) : VM := { vm with stack := v :: vm.stack }

/-- Modelled from the spec: `VM::stack_top` (class `VM` is missing); reading
the top of an empty stack is a StackUnderflow. -/
def VM.stack_top (vm : VM) : Except VMError VMType :=
  match vm.stack with
  | [] => .error .StackUnderflow
  | v :: _ => .ok v

/-- Modelled from the spec: `VM::stack_pop` (class `VM` is missing); "popping
an empty stack is an error, never a no-op". -/
def VM.stack_pop (vm : VM) : Except VMError VM :=
  match vm.stack with
  | [] => .error .StackUnderflow
  | _ :: rest => .ok { vm with stack := rest }

/-- Modelled from the spec: `VM::function_entry` (class `VM` is missing):
"looks up name in the Function Table; fails with UndefinedFunction if absent". -/
def VM.function_entry (vm : VM) (fname : String) : Except VMError FunctionEntry :=
  match vm.functions.lookup fname with
  | some entry => .ok entry
  | none => .error .UndefinedFunction

/-- Modelled from the spec: `VM::make_stack_frame` (class `VM` is missing):
"pushes a new call frame (snapshot of current register file and return
pc = current pc)". -/
def VM.make_stack_frame (vm : VM) : VM :=
  { vm with call_stack := ⟨vm.registers, vm.pc⟩ :: vm.call_stack }

/-- Modelled from the spec: `VM::restore_from_call_stack` (class `VM` is
missing): "pops the top call frame, restoring the caller's register file",
and "pc resumes at the call site's successor"; "fails if the call stack is
empty (underflow)". -/
def VM.restore_from_call_stack (vm : VM) : Except VMError VM :=
  match vm.call_stack with
  | [] => .error .StackUnderflow
  | frame :: rest =>
    .ok { vm with registers := frame.registers, pc := frame.pc + 1, call_stack := rest }

/-! ## Instructions -/

/-- The method `Load::execute`: c(0) = c(i). -/
def Load.execute (i : Nat) (vm : VM) : Option Outcome := do
  let v ← vm.reg i
  let vm1 ← vm.set_reg 0 v
  some ⟨.ok true, vm1.inc_pc⟩

/-- The method `CLoad::execute`: c(0) = value. -/
def CLoad.execute (value : VMType) (vm : VM) : Option Outcome := do
  let vm1 ← vm.set_reg 0 value
  some ⟨.ok true, vm1.inc_pc⟩

/-- The method `INDLoad::execute`: c(0) = c(c(i)) when c(i) holds an int; the program
counter advances in either case. -/
def INDLoad.execute (i : Nat) (vm : VM) : Option Outcome := do
  let ri ← vm.reg i
  if is_vm_type_int ri then
    let index := result_or (vm_type_get_int ri) 0
    let v ← vm.reg_int index
    let vm1 ← vm.set_reg 0 v
    some ⟨.ok true, vm1.inc_pc⟩
  else
    some ⟨.ok true, vm.inc_pc⟩

/-- The method `SLoad::execute`: c(0) = top(stack), then pop; the operand `i` is unused.
The source checks nothing itself: a failure of `stack_top` or `stack_pop`
ends the instruction. -/
def SLoad.execute (_i : Nat) (vm : VM) : Option Outcome :=
  match vm.stack_top with
  | .error e => some ⟨.err e, vm⟩
  | .ok v => do
    let vm1 ← vm.set_reg 0 v
    match vm1.stack_pop with
    | .error e => some ⟨.err e, vm1⟩
    | .ok vm2 => some ⟨.ok true, vm2.inc_pc⟩

/-- The method `Store::execute`: c(i) = c(0). -/
def Store.execute (i : Nat) (vm : VM) : Option Outcome := do
  let v ← vm.reg 0
  let vm1 ← vm.set_reg i v
  some ⟨.ok true, vm1.inc_pc⟩

/-- The method `INDStore::execute`: c(c(i)) = c(0) and pc += 1 when c(i) holds an int;
the function then returns `err("expected int in register ...")` on every path. -/
def INDStore.execute (i : Nat) (vm : VM) : Option Outcome := do
  let ri ← vm.reg i
  if is_vm_type_int ri then
    let index := result_or (vm_type_get_int ri) 0
    let v ← vm.reg 0
    let vm1 ← vm.set_reg_int index v
    some ⟨.err .TypeMismatch, vm1.inc_pc⟩
  else
    some ⟨.err .TypeMismatch, vm⟩

/-- The method `Add::execute`: c(0) = c(0) + c(i). -/
def Add.execute (i : Nat) (vm : VM) : Option Outcome := do
  let r0 ← vm.reg 0
  let ri ← vm.reg i
  match add r0 ri with
  | .ok res =>
    let vm1 ← vm.set_reg 0 res
    some ⟨.ok true, vm1.inc_pc⟩
  | .error e => some ⟨.err e, vm⟩

/-- The method `CAdd::execute`: c(0) = c(0) + i for the literal operand `i`. -/
def CAdd.execute (i : VMType) (vm : VM) : Option Outcome := do
  let r0 ← vm.reg 0
  match add r0 i with
  | .ok res =>
    let vm1 ← vm.set_reg 0 res
    some ⟨.ok true, vm1.inc_pc⟩
  | .error e => some ⟨.err e, vm⟩

/-- The method `INDAdd::execute`: c(0) = c(0) + c(c(i)); an error when c(i) holds no int. -/
def INDAdd.execute (i : Nat) (vm : VM) : Option Outcome := do
  let ri ← vm.reg i
  if is_vm_type_int ri then
    let index := result_or (vm_type_get_int ri) 0
    let r0 ← vm.reg 0
    let rk ← vm.reg_int index
    match add r0 rk with
    | .ok res =>
      let vm1 ← vm.set_reg 0 res
      some ⟨.ok true, vm1.inc_pc⟩
    | .error e => some ⟨.err e, vm⟩
  else
    some ⟨.err .TypeMismatch, vm⟩

/-- The member initialiser `_cond(cond)` of `If::If`: a `std::size_t` stored
in an `int` field keeps its low 32 bits, read in two's complement. -/
def size_to_int (n : Nat) : Int :=
  if n % 4294967296 < 2147483648 then ((n % 4294967296 : Nat) : Int)
  else ((n % 4294967296 : Nat) : Int) - 4294967296

/-- The `switch (_cond)` of `If::execute`: the comparison selected by the
stored selector, `false` when no case matches. -/
def If.condition (_cond : Int) (register_value value : VMPrimitive) : Bool :=
  if _cond = 0 then VMPrimitive.lt register_value value
  else if _cond = 1 then VMPrimitive.gt register_value value
  else if _cond = 2 then VMPrimitive.eq register_value value
  else if _cond = 3 then VMPrimitive.ne register_value value
  else if _cond = 4 then VMPrimitive.le register_value value
  else if _cond = 5 then VMPrimitive.ge register_value value
  else false

/-- The constructor `If::If` followed by `If::execute`: compare c(0) with the literal and
jump to `target` or step to the next instruction.  `std::get<VMPrimitive>`
throws on a struct; that failure is reported as a TypeMismatch. -/
def If.execute (cond : Nat) (value : VMType) (target : Nat) (vm : VM) : Option Outcome := do
  let _cond := size_to_int cond
  let r0 ← vm.reg 0
  match r0, value with
  | .primitive register_value, .primitive v =>
    if If.condition _cond register_value v then
      some ⟨.ok true, vm.set_pc target⟩
    else
      some ⟨.ok true, vm.inc_pc⟩
  | _, _ => some ⟨.err .TypeMismatch, vm⟩

/-- The method `Goto::execute`: pc := i. -/
def Goto.execute (i : Nat) (vm : VM) : Option Outcome :=
  some ⟨.ok true, vm.set_pc i⟩

/-- The method `Halt::execute`: nothing changes. -/
def Halt.execute (vm : VM) : Option Outcome :=
  some ⟨.ok true, vm⟩

/-- The method `Push::execute`: push the literal, pc += 1. -/
def Push.execute (value : VMType) (vm : VM) : Option Outcome :=
  some ⟨.ok true, (vm.stack_push value).inc_pc⟩

/-- The method `Pop::execute`: pop the stack, pc += 1.  The source checks nothing
itself: a failure of `stack_pop` ends the instruction. -/
def Pop.execute (vm : VM) : Option Outcome :=
  match vm.stack_pop with
  | .error e => some ⟨.err e, vm⟩
  | .ok vm1 => some ⟨.ok true, vm1.inc_pc⟩

/-- The method `Print::execute`: pop the stack top, convert it to text, write it. -/
def Print.execute (vm : VM) : Option Outcome :=
  match vm.stack_top with
  | .error e => some ⟨.err e, vm⟩
  | .ok v =>
    match vm.stack_pop with
    | .error e => some ⟨.err e, vm⟩
    | .ok vm1 =>
      match to_string v with
      | .ok text => some ⟨.ok true, ({ vm1 with output := vm1.output ++ [text] }).inc_pc⟩
      | .error e => some ⟨.err e, vm1⟩

/-- The argument loop of `Call::execute`,
`for (uint8_t i = 0; i < entry.argument_count(); ++i)` with the body
`value = stack_top(); registers()[i] = value; stack_pop();`, run on the
operand stack (first argument, top first), the counter and the register
file.  The counter is eight bits wide, so `++i` is taken modulo 256.  Every
iteration shortens the stack and an empty stack ends the loop with the
StackUnderflow of `stack_top`, so the recursion is on the stack.  The result
is the way the loop ended, the register file and the remaining stack. -/
def Call.loop (argument_count : Nat) :
    List VMType → Nat → List VMType → Option (InstructionResult × List VMType × List VMType)
  | [], i, registers =>
    if i < argument_count then some (.err .StackUnderflow, registers, [])
    else some (.ok true, registers, [])
  | value :: rest, i, registers =>
    if i < argument_count then
      if i < registers.length then
        Call.loop argument_count rest ((i + 1) % 256) (registers.set i value)
      else none
    else some (.ok true, registers, value :: rest)

/-- The method `Call::execute`: look the function up, save a frame, check the register
file is longer than the argument count, move the arguments from the stack
into the registers, jump to the entry address. -/
def Call.execute (_fname : VMType) (vm : VM) : Option Outcome :=
  let fname := result_or (vm_type_get_string _fname) ""
  match vm.function_entry fname with
  | .error e => some ⟨.err e, vm⟩
  | .ok entry =>
    let vm1 := vm.make_stack_frame
    if vm1.registers.length ≤ entry.argument_count then
      some ⟨.err .InsufficientRegisters, vm1⟩
    else
      match Call.loop entry.argument_count vm1.stack 0 vm1.registers with
      | none => none
      | some (.err e, registers, stack) =>
        some ⟨.err e, { vm1 with registers := registers, stack := stack }⟩
      | some (.ok _, registers, stack) =>
        some ⟨.ok true, ({ vm1 with registers := registers, stack := stack }).set_pc entry.address⟩

/-- The method `RetVoid::execute`: restore the caller's frame.  The source checks
nothing itself: a failure of `restore_from_call_stack` ends the instruction. -/
def RetVoid.execute (vm : VM) : Option Outcome :=
  match vm.restore_from_call_stack with
  | .error e => some ⟨.err e, vm⟩
  | .ok vm1 => some ⟨.ok true, vm1⟩

/-- The method `Return::execute`: read c(i), restore the caller's frame, push the value
read onto the operand stack.  The source checks nothing itself: a failure of
`restore_from_call_stack` ends the instruction before the push. -/
def Return.execute (i : Nat) (vm : VM) : Option Outcome := do
  let ret_value ← vm.reg i
  match vm.restore_from_call_stack with
  | .error e => some ⟨.err e, vm⟩
  | .ok vm1 => some ⟨.ok true, vm1.stack_push ret_value⟩

/-- Modelled from the spec: `VMStructTypes` (declared in the missing
`VMType.h`), the operand a field is declared or set with.  The spec has
"SetField(i,0,kind) then reading field 0 returns the set value", so the
operand is the value the field takes. -/
abbrev VMStructTypes := VMType

/-- Modelled from the spec: `VMStruct::add_field` (missing `VMType.h`):
"appends a field of declared kind to the struct"; the spec names no failure. -/
def VMStruct.add_field (fields : List VMType) (type : VMStructTypes) : List VMType :=
  fields ++ [type]

/-- Modelled from the spec: `VMStruct::set_field` (missing `VMType.h`):
"overwrites field field_index"; the index "must be within the struct's
currently-populated field range", otherwise the access is rejected with
IndexOutOfRange. -/
def VMStruct.set_field (fields : List VMType) (field_adr : Nat) (type : VMStructTypes) :
    Except VMError (List VMType) :=
  if field_adr < fields.length then .ok (fields.set field_adr type)
  else .error .IndexOutOfRange

/-- Modelled from the spec: `VMStruct::get_field` (missing `VMType.h`): the
field at a position inside the populated range, IndexOutOfRange outside it. -/
def VMStruct.get_field (fields : List VMType) (adr : Nat) : Except VMError VMType :=
  match fields[adr]? with
  | some v => .ok v
  | none => .error .IndexOutOfRange

/-- The method `PrintRegStructField::execute`: read field `adr` of the struct in
c(i), require a primitive, convert it to text and write it.
`std::get<VMStruct>` and `std::get<VMPrimitive>` throw on the other
alternative; that failure is reported as a TypeMismatch. -/
def PrintRegStructField.execute (i adr : Nat) (vm : VM) : Option Outcome := do
  let ri ← vm.reg i
  match ri with
  | .struct _ fields =>
    match VMStruct.get_field fields adr with
    | .error e => some ⟨.err e, vm⟩
    | .ok (.primitive p) =>
      match to_string (.primitive p) with
      | .ok text => some ⟨.ok true, ({ vm with output := vm.output ++ [text] }).inc_pc⟩
      | .error e => some ⟨.err e, vm⟩
    | .ok (.struct _ _) => some ⟨.err .TypeMismatch, vm⟩
  | .primitive _ => some ⟨.err .TypeMismatch, vm⟩

/-- Modelled from the spec: an entry of the native function table, "a
callable taking (machine state, ordered argument list) and returning a
Result; argument count is part of the entry".  The callable "may mutate
machine state arbitrarily": it yields its result and the machine it leaves. -/
structure NativeFunctionEntry where
  argument_count : Nat
  call : VM → List VMType → Outcome

/-- Modelled from the spec: `VM::native_function_entry` (class `VM` is
missing): "looks up name in the Native Function Table; fails with
UndefinedFunction if absent".  The table is host-provided and is passed
along with the machine. -/
def native_function_entry (natives : List (String × NativeFunctionEntry)) (fname : String) :
    Except VMError NativeFunctionEntry :=
  match natives.lookup fname with
  | some entry => .ok entry
  | none => .error .UndefinedFunction

/-- The argument loop of `CallNative::execute`,
`for (uint8_t i = 0; i < entry.argument_count(); ++i)` with the body
`value = stack_top(); args.push_back(value); stack_pop();`, run on the
operand stack (first argument, top first), the counter and the list `args`
built so far.  The counter is eight bits wide, so `++i` is taken modulo 256.
The result is the way the loop ended, `args` and the remaining stack. -/
def CallNative.loop (argument_count : Nat) :
    List VMType → Nat → List VMType → InstructionResult × List VMType × List VMType
  | [], i, args =>
    if i < argument_count then (.err .StackUnderflow, args, [])
    else (.ok true, args, [])
  | value :: rest, i, args =>
    if i < argument_count then
      CallNative.loop argument_count rest ((i + 1) % 256) (args ++ [value])
    else (.ok true, args, value :: rest)

/-- The method `CallNative::execute`: look the native function up, move its arguments
from the stack into a list, call it; `if (!res) return res;` hands a failure
of the callable on, otherwise pc += 1. -/
def CallNative.execute (natives : List (String × NativeFunctionEntry)) (_fname : VMType)
    (vm : VM) : Option Outcome :=
  let fname := result_or (vm_type_get_string _fname) ""
  match native_function_entry natives fname with
  | .error e => some ⟨.err e, vm⟩
  | .ok entry =>
    match CallNative.loop entry.argument_count vm.stack 0 [] with
    | (.err e, _, stack) => some ⟨.err e, { vm with stack := stack }⟩
    | (.ok _, args, stack) =>
      let res := entry.call { vm with stack := stack } args
      match res.result with
      | .err e => some ⟨.err e, res.vm⟩
      | .ok _ => some ⟨.ok true, res.vm.inc_pc⟩

/-- The method `StructCreate::execute`: c(i) = VMStruct(sz), "a new struct with
capacity size, zero fields populated"; pc += 1. -/
def StructCreate.execute (i sz : Nat) (vm : VM) : Option Outcome := do
  let vm1 ← vm.set_reg i (.struct sz [])
  some ⟨.ok true, vm1.inc_pc⟩

/-- The method `AddField::execute`: append a field to the struct in c(i); pc += 1.
`std::get<VMStruct>` throws on a primitive; that failure is reported as a
TypeMismatch. -/
def AddField.execute (i : Nat) (type : VMStructTypes) (vm : VM) : Option Outcome := do
  let ri ← vm.reg i
  match ri with
  | .struct capacity fields =>
    let vm1 ← vm.set_reg i (.struct capacity (VMStruct.add_field fields type))
    some ⟨.ok true, vm1.inc_pc⟩
  | .primitive _ => some ⟨.err .TypeMismatch, vm⟩

/-- The method `SetField::execute`: overwrite field `field_adr` of the struct in
c(i); pc += 1.  `std::get<VMStruct>` throws on a primitive; that failure is
reported as a TypeMismatch, and a failure of `set_field` ends the
instruction. -/
def SetField.execute (i field_adr : Nat) (type : VMStructTypes) (vm : VM) : Option Outcome := do
  let ri ← vm.reg i
  match ri with
  | .struct capacity fields =>
    match VMStruct.set_field fields field_adr type with
    | .error e => some ⟨.err e, vm⟩
    | .ok fields1 =>
      let vm1 ← vm.set_reg i (.struct capacity fields1)
      some ⟨.ok true, vm1.inc_pc⟩
  | .primitive _ => some ⟨.err .TypeMismatch, vm⟩

/-! ## Instruction set and driver -/

/-- The variant `InstructionType`: the closed set of instruction kinds, each
with the operands its constructor takes. -/
inductive Instruction
  | Load (i : Nat)
  | CLoad (value : VMType)
  | INDLoad (i : Nat)
  | SLoad (i : Nat)
  | Store (i : Nat)
  | INDStore (i : Nat)
  | Add (i : Nat)
  | CAdd (i : VMType)
  | INDAdd (i : Nat)
  | If (cond : Nat) (value : VMType) (target : Nat)
  | Goto (i : Nat)
  | Halt
  | Push (value : VMType)
  | Pop
  | Print
  | PrintRegStructField (i adr : Nat)
  | Call (fname : VMType)
  | CallNative (fname : VMType)
  | RetVoid
  | Return (i : Nat)
  | StructCreate (i sz : Nat)
  | AddField (i : Nat) (type : VMStructTypes)
  | SetField (i field_adr : Nat) (type : VMStructTypes)
  deriving DecidableEq

/-- The virtual call `instruction.execute(vm)`: the `execute` of the kind. -/
def execute (natives : List (String × NativeFunctionEntry)) :
    Instruction → VM → Option Outcome
  | .Load i, vm => Load.execute i vm
  | .CLoad value, vm => CLoad.execute value vm
  | .INDLoad i, vm => INDLoad.execute i vm
  | .SLoad i, vm => SLoad.execute i vm
  | .Store i, vm => Store.execute i vm
  | .INDStore i, vm => INDStore.execute i vm
  | .Add i, vm => Add.execute i vm
  | .CAdd i, vm => CAdd.execute i vm
  | .INDAdd i, vm => INDAdd.execute i vm
  | .If cond value target, vm => If.execute cond value target vm
  | .Goto i, vm => Goto.execute i vm
  | .Halt, vm => Halt.execute vm
  | .Push value, vm => Push.execute value vm
  | .Pop, vm => Pop.execute vm
  | .Print, vm => Print.execute vm
  | .PrintRegStructField i adr, vm => PrintRegStructField.execute i adr vm
  | .Call fname, vm => Call.execute fname vm
  | .CallNative fname, vm => CallNative.execute natives fname vm
  | .RetVoid, vm => RetVoid.execute vm
  | .Return i, vm => Return.execute i vm
  | .StructCreate i sz, vm => StructCreate.execute i sz vm
  | .AddField i type, vm => AddField.execute i type vm
  | .SetField i field_adr type, vm => SetField.execute i field_adr type vm

/-- An integer value. -/
def vint (n : Int) : VMType := .primitive (.int n)

/-- A text value. -/
def vstr (s : String) : VMType := .primitive (.str s)

/-- A machine with registers 5, "a", a struct and 1, the operand stack [8],
an empty call stack and pc = 3. -/
def vmRegs : VM :=
  { registers := [vint 5, vstr "a", .struct 2 [], vint 1]
    stack := [vint 8]
    call_stack := []
    functions := []
    pc := 3
    output := [] }

/-- A machine with three registers whose function `h` takes three arguments. -/
def vmNarrow : VM :=
  { registers := [vint 1, vint 2, vint 3]
    stack := [vint 30, vint 20, vint 10]
    call_stack := []
    functions := [("h", ⟨40, 3⟩)]
    pc := 7
    output := [] }

/-- A machine for the add family: reg0 = 5, reg1 = 3, reg2 = 1 (the index of
reg1), reg3 a struct. -/
def vmAdd : VM :=
  { registers := [vint 5, vint 3, vint 1, .struct 2 []]
    stack := [vint 8]
    call_stack := []
    functions := []
    pc := 3
    output := [] }

/-- A machine whose operand stack has a struct on top of the integer 4. -/
def vmStructTop : VM :=
  { registers := [vint 5, .struct 3 []]
    stack := [.struct 1 [vint 2], vint 4]
    call_stack := []
    functions := []
    pc := 3
    output := ["x"] }

/-! ## Postconditions -/

theorem VM.reg_eq (vm : VM) (i : Nat) : vm.reg i = vm.registers[i]? := rfl

theorem VM.set_reg_of_lt (vm : VM) (i : Nat) (v : VMType) (h : i < vm.registers.length) :
    vm.set_reg i v = some { vm with registers := vm.registers.set i v } := by
  simp [VM.set_reg, h]

/-- C7: for every index i inside the register file, Load(i) succeeds, leaves
reg0 equal to the old reg[i], advances pc by one, leaves reg[i] as it was
(also when i = 0), leaves every register other than reg0 as it was, and
leaves the operand stack and the call stack as they were. -/
theorem Load_effect (vm : VM) (i : Nat) (hi : i < vm.registers.length) :
    ∃ vm', Load.execute i vm = some ⟨.ok true, vm'⟩ ∧
      vm'.registers[0]? = vm.registers[i]? ∧
      vm'.pc = vm.pc + 1 ∧
      vm'.registers[i]? = vm.registers[i]? ∧
      (∀ j, j ≠ 0 → vm'.registers[j]? = vm.registers[j]?) ∧
      vm'.registers.length = vm.registers.length ∧
      vm'.stack = vm.stack ∧ vm'.call_stack = vm.call_stack := by
  have h0 : 0 < vm.registers.length := by omega
  refine ⟨{ vm with registers := vm.registers.set 0 vm.registers[i], pc := vm.pc + 1 }, ?_, ?_, rfl, ?_, ?_, ?_, rfl, rfl⟩
  · simp [Load.execute, VM.reg_eq, List.getElem?_eq_getElem hi, VM.set_reg_of_lt _ _ _ h0,
      VM.inc_pc]
  · simp [List.getElem?_set, h0, List.getElem?_eq_getElem hi]
  · by_cases hz : i = 0
    · subst hz
      simp [List.getElem?_set, h0]
    · simp [List.getElem?_set, Ne.symm hz]
  · intro j hj
    simp [List.getElem?_set, Ne.symm hj]
  · simp

/-- Witness of C7 on a machine with four registers: Load(1) and Load(0). -/
theorem Load_effect_witness :
    (1 < vmRegs.registers.length ∧
      ∃ vm', Load.execute 1 vmRegs = some ⟨.ok true, vm'⟩ ∧
        vm'.registers[0]? = vmRegs.registers[1]? ∧
        vm'.pc = vmRegs.pc + 1 ∧
        vm'.registers[1]? = vmRegs.registers[1]? ∧
        (∀ j, j ≠ 0 → vm'.registers[j]? = vmRegs.registers[j]?) ∧
        vm'.registers.length = vmRegs.registers.length ∧
        vm'.stack = vmRegs.stack ∧ vm'.call_stack = vmRegs.call_stack) ∧
    Load.execute 1 vmRegs =
      some ⟨.ok true, { vmRegs with registers := [vstr "a", vstr "a", .struct 2 [], vint 1], pc := 4 }⟩ ∧
    Load.execute 0 vmRegs = some ⟨.ok true, { vmRegs with pc := 4 }⟩ :=
  ⟨⟨by decide, Load_effect vmRegs 1 (by decide)⟩, by decide, by decide⟩

/-! ## Push and Pop -/

/-- C8: for every machine state and every value v, Push(v) followed by Pop()
succeeds both times, leaves the operand stack exactly as it was, leaves the
registers and the call stack as they were, and advances pc by two. -/
theorem Push_Pop_round_trip (vm : VM) (v : VMType) :
    ∃ vm1 vm2, Push.execute v vm = some ⟨.ok true, vm1⟩ ∧
      Pop.execute vm1 = some ⟨.ok true, vm2⟩ ∧
      vm2.stack = vm.stack ∧ vm2.registers = vm.registers ∧
      vm2.call_stack = vm.call_stack ∧ vm2.pc = vm.pc + 2 :=
  ⟨(vm.stack_push v).inc_pc, { vm with pc := vm.pc + 2 }, rfl, rfl, rfl, rfl, rfl, rfl⟩

/-! ## Call: failures -/

/-- When the register file is not longer than the argument count, Call fails
with InsufficientRegisters after `make_stack_frame` has run: the machine it
leaves has one frame more on the call stack. -/
theorem Call_insufficient_registers (vm : VM) (name : String) (entry : FunctionEntry)
    (h : vm.functions.lookup name = some entry)
    (hn : vm.registers.length ≤ entry.argument_count) :
    Call.execute (vstr name) vm = some ⟨.err .InsufficientRegisters, vm.make_stack_frame⟩ := by
  have hn' : vm.make_stack_frame.registers.length ≤ entry.argument_count := hn
  simp [Call.execute, vstr, vm_type_get_string, result_or, VM.function_entry, h, hn']

/-- C4 at a failing input: three registers, `h` with three formal arguments.
Call("h") fails with InsufficientRegisters, registers, operand stack and pc
are as before, and the call stack has gained the frame that was saved before
the check: it is not as before. -/
theorem Call_insufficient_registers_leaves_frame :
    vmNarrow.functions.lookup "h" = some ⟨40, 3⟩ ∧
    vmNarrow.registers.length ≤ 3 ∧
    Call.execute (vstr "h") vmNarrow =
      some ⟨.err .InsufficientRegisters,
        { vmNarrow with call_stack := [⟨vmNarrow.registers, 7⟩] }⟩ ∧
    vmNarrow.call_stack = [] := by
  decide

/-! ## If -/

theorem size_to_int_of_le (cond : Nat) (h : cond ≤ 5) : size_to_int cond = (cond : Int) := by
  have h1 : cond % 4294967296 = cond := Nat.mod_eq_of_lt (by omega)
  have h2 : cond < 2147483648 := by omega
  simp [size_to_int, h1, h2]

theorem size_to_int_outside (cond : Nat) (h : 5 < cond % 4294967296) :
    size_to_int cond < 0 ∨ 5 < size_to_int cond := by
  unfold size_to_int
  split
  · right
    omega
  · left
    omega

theorem If.condition_outside (c : Int) (x v : VMPrimitive) (h : c < 0 ∨ 5 < c) :
    If.condition c x v = false := by
  have h0 : c ≠ 0 := by omega
  have h1 : c ≠ 1 := by omega
  have h2 : c ≠ 2 := by omega
  have h3 : c ≠ 3 := by omega
  have h4 : c ≠ 4 := by omega
  have h5 : c ≠ 5 := by omega
  simp [If.condition, h0, h1, h2, h3, h4, h5]

/-- The result of `If::execute` when c(0) and the literal are primitives. -/
theorem If.execute_primitive (vm : VM) (x v : VMPrimitive) (T cond : Nat)
    (h0 : vm.reg 0 = some (.primitive x)) :
    If.execute cond (.primitive v) T vm =
      some ⟨.ok true,
        if If.condition (size_to_int cond) x v then vm.set_pc T else vm.inc_pc⟩ := by
  simp only [If.execute, h0, Option.bind_eq_bind, Option.some_bind]
  split <;> rfl

/-- C9: for every machine state whose reg0 holds a primitive x, every
primitive literal v, every target T and every selector cond in 0..5,
If(cond, v, T) succeeds and sets pc to T exactly when x op v holds, op being
<, >, ==, !=, <=, >= for cond 0..5, and to the old pc + 1 otherwise;
registers, operand stack and call stack stay as they were. -/
theorem If_branch (vm : VM) (x v : VMPrimitive) (T cond : Nat)
    (h0 : vm.reg 0 = some (.primitive x)) (hc : cond ≤ 5) :
    ∃ vm', If.execute cond (.primitive v) T vm = some ⟨.ok true, vm'⟩ ∧
      (cond = 0 → vm'.pc = if x < v then T else vm.pc + 1) ∧
      (cond = 1 → vm'.pc = if x > v then T else vm.pc + 1) ∧
      (cond = 2 → vm'.pc = if x = v then T else vm.pc + 1) ∧
      (cond = 3 → vm'.pc = if x ≠ v then T else vm.pc + 1) ∧
      (cond = 4 → vm'.pc = if x ≤ v then T else vm.pc + 1) ∧
      (cond = 5 → vm'.pc = if x ≥ v then T else vm.pc + 1) ∧
      vm'.registers = vm.registers ∧ vm'.stack = vm.stack ∧
      vm'.call_stack = vm.call_stack := by
  refine ⟨_, If.execute_primitive vm x v T cond h0, ?_, ?_, ?_, ?_, ?_, ?_, ?_, ?_, ?_⟩
  · rintro rfl
    by_cases h : VMPrimitive.lt x v = true
    · have h' : x < v := h
      simp [size_to_int, If.condition, h, h', VM.set_pc]
    · have h' : ¬ x < v := h
      simp [size_to_int, If.condition, h, h', VM.inc_pc]
  · rintro rfl
    by_cases h : VMPrimitive.lt v x = true
    · have h' : x > v := h
      simp [size_to_int, If.condition, VMPrimitive.gt, h, h', VM.set_pc]
    · have h' : ¬ x > v := h
      simp [size_to_int, If.condition, VMPrimitive.gt, h, h', VM.inc_pc]
  · rintro rfl
    by_cases h : x = v
    · simp [size_to_int, If.condition, VMPrimitive.eq, h, VM.set_pc]
    · simp [size_to_int, If.condition, VMPrimitive.eq, h, VM.inc_pc]
  · rintro rfl
    by_cases h : x = v
    · simp [size_to_int, If.condition, VMPrimitive.ne, VMPrimitive.eq, h, VM.inc_pc]
    · simp [size_to_int, If.condition, VMPrimitive.ne, VMPrimitive.eq, h, VM.set_pc]
  · rintro rfl
    by_cases h : VMPrimitive.le x v = true
    · have h' : x ≤ v := h
      simp [size_to_int, If.condition, h, h', VM.set_pc]
    · have h' : ¬ x ≤ v := h
      simp [size_to_int, If.condition, h, h', VM.inc_pc]
  · rintro rfl
    by_cases h : VMPrimitive.le v x = true
    · have h' : x ≥ v := h
      have h2 : VMPrimitive.ge x v = true := h
      simp [size_to_int, If.condition, h2, h', VM.set_pc]
    · have h' : ¬ x ≥ v := h
      have h2 : ¬ VMPrimitive.ge x v = true := h
      simp [size_to_int, If.condition, h2, h', VM.inc_pc]
  · split <;> rfl
  · split <;> rfl
  · split <;> rfl

/-- Witness of C9: with reg0 = 5, If(2, 5, 99) sets pc to 99 and If(2, 6, 99)
sets pc to the old pc + 1. -/
theorem If_branch_witness :
    (vmRegs.reg 0 = some (.primitive (.int 5)) ∧ 2 ≤ 5 ∧
      ∃ vm', If.execute 2 (.primitive (.int 6)) 99 vmRegs = some ⟨.ok true, vm'⟩ ∧
        (2 = 0 → vm'.pc = if VMPrimitive.int 5 < .int 6 then 99 else vmRegs.pc + 1) ∧
        (2 = 1 → vm'.pc = if VMPrimitive.int 5 > .int 6 then 99 else vmRegs.pc + 1) ∧
        (2 = 2 → vm'.pc = if VMPrimitive.int 5 = .int 6 then 99 else vmRegs.pc + 1) ∧
        (2 = 3 → vm'.pc = if VMPrimitive.int 5 ≠ .int 6 then 99 else vmRegs.pc + 1) ∧
        (2 = 4 → vm'.pc = if VMPrimitive.int 5 ≤ .int 6 then 99 else vmRegs.pc + 1) ∧
        (2 = 5 → vm'.pc = if VMPrimitive.int 5 ≥ .int 6 then 99 else vmRegs.pc + 1) ∧
        vm'.registers = vmRegs.registers ∧ vm'.stack = vmRegs.stack ∧
        vm'.call_stack = vmRegs.call_stack) ∧
    If.execute 2 (vint 5) 99 vmRegs = some ⟨.ok true, { vmRegs with pc := 99 }⟩ ∧
    If.execute 2 (vint 6) 99 vmRegs = some ⟨.ok true, { vmRegs with pc := 4 }⟩ :=
  ⟨⟨by decide, by decide, If_branch vmRegs (.int 5) (.int 6) 99 2 (by decide) (by decide)⟩,
    by decide, by decide⟩

/-- C10 as stated fails: the selector 4294967298 = 2^32 + 2 is outside 0..5,
yet stored in the `int` field it is 2, so with reg0 = 5 and literal 5 the
branch to the target 99 is taken. -/
theorem If_selector_counterexample :
    ¬ (4294967298 ≤ 5) ∧ size_to_int 4294967298 = 2 ∧
    vmRegs.reg 0 = some (vint 5) ∧
    If.execute 4294967298 (vint 5) 99 vmRegs = some ⟨.ok true, { vmRegs with pc := 99 }⟩ ∧
    (99 : Nat) ≠ vmRegs.pc + 1 := by
  decide

/-- C10, amended: for every selector cond whose low 32 bits are outside 0..5
(that is, whose value as stored in the `int` field is outside 0..5), every
primitive reg0, every primitive literal and every target, If succeeds with
the condition false: pc becomes the old pc + 1 and nothing else changes. -/
theorem If_selector_outside (vm : VM) (x v : VMPrimitive) (T cond : Nat)
    (h0 : vm.reg 0 = some (.primitive x)) (hc : 5 < cond % 4294967296) :
    If.execute cond (.primitive v) T vm = some ⟨.ok true, { vm with pc := vm.pc + 1 }⟩ := by
  rw [If.execute_primitive vm x v T cond h0,
    If.condition_outside _ x v (size_to_int_outside cond hc)]
  rfl

/-- Witness of C10 amended: the selectors 6 and 2^32 - 1 (stored as -1). -/
theorem If_selector_outside_witness :
    (vmRegs.reg 0 = some (.primitive (.int 5)) ∧ 5 < 6 % 4294967296 ∧
      If.execute 6 (.primitive (.int 5)) 99 vmRegs =
        some ⟨.ok true, { vmRegs with pc := vmRegs.pc + 1 }⟩) ∧
    If.execute 4294967295 (vint 5) 99 vmRegs = some ⟨.ok true, { vmRegs with pc := 4 }⟩ :=
  ⟨⟨by decide, by decide, If_selector_outside vmRegs (.int 5) (.int 5) 99 6 (by decide) (by decide)⟩,
    by decide⟩

/-! ## Add, CAdd, INDAdd -/

theorem add_error (x y : VMType) (e : VMError) (h : add x y = .error e) :
    e = .TypeMismatch := by
  unfold add at h
  split at h
  · cases h
  · cases h
    rfl

/-- C6: for every machine state, whenever Add(i), CAdd(v) or INDAdd(i)
returns an error, the error is a TypeMismatch and the machine state after the
call equals the state before it. -/
theorem Add_family_failure_atomic (vm vm' : VM) (e : VMError) :
    (∀ i, Add.execute i vm = some ⟨.err e, vm'⟩ → e = .TypeMismatch ∧ vm' = vm) ∧
    (∀ v, CAdd.execute v vm = some ⟨.err e, vm'⟩ → e = .TypeMismatch ∧ vm' = vm) ∧
    (∀ i, INDAdd.execute i vm = some ⟨.err e, vm'⟩ → e = .TypeMismatch ∧ vm' = vm) := by
  refine ⟨?_, ?_, ?_⟩
  · intro i h
    unfold Add.execute at h
    cases h0 : vm.reg 0 with
    | none => simp [h0] at h
    | some r0 =>
      cases hi : vm.reg i with
      | none => simp [h0, hi] at h
      | some ri =>
        cases hadd : add r0 ri with
        | error e' =>
          simp [h0, hi, hadd] at h
          obtain ⟨he, hvm⟩ := h
          subst he
          exact ⟨add_error _ _ _ hadd, hvm.symm⟩
        | ok res =>
          simp [h0, hi, hadd] at h
          cases hs : vm.set_reg 0 res with
          | none => simp [hs] at h
          | some vm1 => simp [hs] at h
  · intro v h
    unfold CAdd.execute at h
    cases h0 : vm.reg 0 with
    | none => simp [h0] at h
    | some r0 =>
      cases hadd : add r0 v with
      | error e' =>
        simp [h0, hadd] at h
        obtain ⟨he, hvm⟩ := h
        subst he
        exact ⟨add_error _ _ _ hadd, hvm.symm⟩
      | ok res =>
        simp [h0, hadd] at h
        cases hs : vm.set_reg 0 res with
        | none => simp [hs] at h
        | some vm1 => simp [hs] at h
  · intro i h
    unfold INDAdd.execute at h
    cases hi : vm.reg i with
    | none => simp [hi] at h
    | some ri =>
      by_cases hint : is_vm_type_int ri = true
      · cases h0 : vm.reg 0 with
        | none => simp [hi, hint, h0] at h
        | some r0 =>
          cases hk : vm.reg_int (result_or (vm_type_get_int ri) 0) with
          | none => simp [hi, hint, h0, hk] at h
          | some rk =>
            cases hadd : add r0 rk with
            | error e' =>
              simp [hi, hint, h0, hk, hadd] at h
              obtain ⟨he, hvm⟩ := h
              subst he
              exact ⟨add_error _ _ _ hadd, hvm.symm⟩
            | ok res =>
              simp [hi, hint, h0, hk, hadd] at h
              cases hs : vm.set_reg 0 res with
              | none => simp [hs] at h
              | some vm1 => simp [hs] at h
      · simp [hi, hint] at h
        exact ⟨h.1.symm, h.2.symm⟩

/-- Witness of C6: Add(3) and CAdd of a struct fail on the struct operand,
INDAdd(3) fails on the struct in the index register; each time the error is
a TypeMismatch and the machine is untouched. -/
theorem Add_family_failure_atomic_witness :
    (Add.execute 3 vmAdd = some ⟨.err .TypeMismatch, vmAdd⟩ ∧
      VMError.TypeMismatch = .TypeMismatch ∧ vmAdd = vmAdd) ∧
    (CAdd.execute (.struct 1 []) vmAdd = some ⟨.err .TypeMismatch, vmAdd⟩ ∧
      VMError.TypeMismatch = .TypeMismatch ∧ vmAdd = vmAdd) ∧
    (INDAdd.execute 3 vmAdd = some ⟨.err .TypeMismatch, vmAdd⟩ ∧
      VMError.TypeMismatch = .TypeMismatch ∧ vmAdd = vmAdd) :=
  ⟨⟨by decide, (Add_family_failure_atomic vmAdd vmAdd .TypeMismatch).1 3 (by decide)⟩,
    ⟨by decide, (Add_family_failure_atomic vmAdd vmAdd .TypeMismatch).2.1 (.struct 1 []) (by decide)⟩,
    ⟨by decide, (Add_family_failure_atomic vmAdd vmAdd .TypeMismatch).2.2 3 (by decide)⟩⟩

/-! ## Call: argument transfer -/

/-- C15 at a failing input: reg0 = 5, reg2 = 1, pc = 3.  INDStore(2) stores
reg0 into reg1 and advances pc to 4, and then returns the error: the pc
after the failed call is not the pc before it. -/
theorem INDStore_error_advances_pc :
    execute [] (.INDStore 2) vmAdd =
      some ⟨.err .TypeMismatch,
        { vmAdd with registers := [vint 5, vint 5, vint 1, .struct 2 []], pc := 4 }⟩ ∧
    vmAdd.pc = 3 := by
  decide

/-- C17: INDStore never succeeds: whatever it returns is a TypeMismatch
error.  When reg[i] holds an integer k inside the register file, the state it
leaves has reg[k] equal to the old reg0, pc advanced by one and every other
register, the operand stack and the call stack unchanged; when reg[i] holds
no integer the state is unchanged. -/
theorem INDStore_always_errors (vm : VM) (i : Nat) :
    (∀ out, INDStore.execute i vm = some out → out.result = .err .TypeMismatch) ∧
    (∀ k : Int, vm.reg i = some (vint k) → 0 ≤ k → k.toNat < vm.registers.length →
      ∃ vm', INDStore.execute i vm = some ⟨.err .TypeMismatch, vm'⟩ ∧
        vm'.registers[k.toNat]? = vm.registers[0]? ∧
        vm'.pc = vm.pc + 1 ∧
        (∀ j, j ≠ k.toNat → vm'.registers[j]? = vm.registers[j]?) ∧
        vm'.stack = vm.stack ∧ vm'.call_stack = vm.call_stack) ∧
    (∀ ri, vm.reg i = some ri → is_vm_type_int ri = false →
      INDStore.execute i vm = some ⟨.err .TypeMismatch, vm⟩) := by
  refine ⟨?_, ?_, ?_⟩
  · intro out hout
    unfold INDStore.execute at hout
    cases hi : vm.reg i with
    | none => simp [hi] at hout
    | some ri =>
      by_cases hint : is_vm_type_int ri = true
      · cases h0 : vm.reg 0 with
        | none => simp [hi, hint, h0] at hout
        | some r0 =>
          cases hs : vm.set_reg_int (result_or (vm_type_get_int ri) 0) r0 with
          | none => simp [hi, hint, h0, hs] at hout
          | some vm1 =>
            simp [hi, hint, h0, hs] at hout
            rw [← hout]
      · simp [hi, hint] at hout
        rw [← hout]
  · intro k hi hk hlt
    have h0 : 0 < vm.registers.length := by omega
    refine ⟨{ vm with registers := vm.registers.set k.toNat vm.registers[0], pc := vm.pc + 1 },
      ?_, ?_, rfl, ?_, rfl, rfl⟩
    · have hi' : vm.registers[i]? = some (VMType.primitive (.int k)) := hi
      simp [INDStore.execute, hi', is_vm_type_int, vm_type_get_int, result_or, VM.reg,
        List.getElem?_eq_getElem h0, VM.set_reg_int, hk, VM.set_reg, hlt, VM.inc_pc]
    · simp [List.getElem?_set, hlt, List.getElem?_eq_getElem h0]
    · intro j hj
      simp [List.getElem?_set, Ne.symm hj]
  · intro ri hi hint
    simp [INDStore.execute, hi, hint]

/-- Witness of C17: with reg2 = 1, INDStore(2) stores reg0 into reg1, advances
pc and fails; with a struct in reg3, INDStore(3) fails and changes nothing. -/
theorem INDStore_always_errors_witness :
    (INDStore.execute 2 vmAdd = some ⟨.err .TypeMismatch,
        { vmAdd with registers := [vint 5, vint 5, vint 1, .struct 2 []], pc := 4 }⟩ ∧
      (⟨.err .TypeMismatch,
        { vmAdd with registers := [vint 5, vint 5, vint 1, .struct 2 []], pc := 4 }⟩ :
        Outcome).result = .err .TypeMismatch) ∧
    (vmAdd.reg 2 = some (vint 1) ∧ (0 : Int) ≤ 1 ∧ (1 : Int).toNat < vmAdd.registers.length ∧
      ∃ vm', INDStore.execute 2 vmAdd = some ⟨.err .TypeMismatch, vm'⟩ ∧
        vm'.registers[(1 : Int).toNat]? = vmAdd.registers[0]? ∧
        vm'.pc = vmAdd.pc + 1 ∧
        (∀ j, j ≠ (1 : Int).toNat → vm'.registers[j]? = vmAdd.registers[j]?) ∧
        vm'.stack = vmAdd.stack ∧ vm'.call_stack = vmAdd.call_stack) ∧
    (vmAdd.reg 3 = some (.struct 2 []) ∧ is_vm_type_int (.struct 2 []) = false ∧
      INDStore.execute 3 vmAdd = some ⟨.err .TypeMismatch, vmAdd⟩) :=
  ⟨⟨by decide, (INDStore_always_errors vmAdd 2).1
      ⟨.err .TypeMismatch, { vmAdd with registers := [vint 5, vint 5, vint 1, .struct 2 []], pc := 4 }⟩
      (by decide)⟩,
    ⟨by decide, by decide, by decide,
      (INDStore_always_errors vmAdd 2).2.1 1 (by decide) (by decide) (by decide)⟩,
    ⟨by decide, by decide, (INDStore_always_errors vmAdd 3).2.2 (.struct 2 []) (by decide) (by decide)⟩⟩

/-- C18: INDLoad never signals an error and always advances pc by one:
whatever it returns is a success with pc + 1 and both stacks unchanged.  For
a register index i, when reg[i] holds an integer k that is a register index,
reg0 becomes the old reg[k]; when reg[i] holds no integer, every register is
unchanged. -/
theorem INDLoad_never_errors (vm : VM) (i : Nat) :
    (∀ out, INDLoad.execute i vm = some out →
      out.result = .ok true ∧ out.vm.pc = vm.pc + 1 ∧
      out.vm.stack = vm.stack ∧ out.vm.call_stack = vm.call_stack) ∧
    (∀ k : Int, vm.reg i = some (vint k) → 0 ≤ k → k.toNat < vm.registers.length →
      ∃ vm', INDLoad.execute i vm = some ⟨.ok true, vm'⟩ ∧
        vm'.registers[0]? = vm.registers[k.toNat]? ∧
        vm'.pc = vm.pc + 1 ∧
        (∀ j, j ≠ 0 → vm'.registers[j]? = vm.registers[j]?) ∧
        vm'.stack = vm.stack ∧ vm'.call_stack = vm.call_stack) ∧
    (∀ ri, vm.reg i = some ri → is_vm_type_int ri = false →
      INDLoad.execute i vm = some ⟨.ok true, { vm with pc := vm.pc + 1 }⟩) := by
  refine ⟨?_, ?_, ?_⟩
  · intro out hout
    unfold INDLoad.execute at hout
    cases hi : vm.reg i with
    | none => simp [hi] at hout
    | some ri =>
      by_cases hint : is_vm_type_int ri = true
      · cases hk : vm.reg_int (result_or (vm_type_get_int ri) 0) with
        | none => simp [hi, hint, hk] at hout
        | some v =>
          cases hs : vm.set_reg 0 v with
          | none => simp [hi, hint, hk, hs] at hout
          | some vm1 =>
            simp [hi, hint, hk, hs] at hout
            have hvm1 : vm1 = { vm with registers := vm.registers.set 0 v } := by
              unfold VM.set_reg at hs
              split at hs
              · exact (Option.some.inj hs).symm
              · cases hs
            subst hvm1
            rw [← hout]
            exact ⟨rfl, rfl, rfl, rfl⟩
      · simp [hi, hint] at hout
        rw [← hout]
        exact ⟨rfl, rfl, rfl, rfl⟩
  · intro k hi hk hlt
    have h0 : 0 < vm.registers.length := by omega
    refine ⟨{ vm with registers := vm.registers.set 0 vm.registers[k.toNat], pc := vm.pc + 1 },
      ?_, ?_, rfl, ?_, rfl, rfl⟩
    · have hi' : vm.registers[i]? = some (VMType.primitive (.int k)) := hi
      simp [INDLoad.execute, hi', is_vm_type_int, vm_type_get_int, result_or, VM.reg,
        List.getElem?_eq_getElem hlt, VM.reg_int, hk, VM.set_reg, h0, VM.inc_pc]
    · simp [List.getElem?_set, h0, List.getElem?_eq_getElem hlt]
    · intro j hj
      simp [List.getElem?_set, Ne.symm hj]
  · intro ri hi hint
    simp [INDLoad.execute, hi, hint, VM.inc_pc]

/-- Witness of C18: with reg2 = 1, INDLoad(2) copies reg1 into reg0; with a
struct in reg3, INDLoad(3) only advances pc. -/
theorem INDLoad_never_errors_witness :
    (INDLoad.execute 2 vmAdd = some ⟨.ok true,
        { vmAdd with registers := [vint 3, vint 3, vint 1, .struct 2 []], pc := 4 }⟩ ∧
      (.ok true : InstructionResult) = .ok true ∧ (4 : Nat) = vmAdd.pc + 1 ∧
      vmAdd.stack = vmAdd.stack ∧ vmAdd.call_stack = vmAdd.call_stack) ∧
    (vmAdd.reg 2 = some (vint 1) ∧ (0 : Int) ≤ 1 ∧ (1 : Int).toNat < vmAdd.registers.length ∧
      ∃ vm', INDLoad.execute 2 vmAdd = some ⟨.ok true, vm'⟩ ∧
        vm'.registers[0]? = vmAdd.registers[(1 : Int).toNat]? ∧
        vm'.pc = vmAdd.pc + 1 ∧
        (∀ j, j ≠ 0 → vm'.registers[j]? = vmAdd.registers[j]?) ∧
        vm'.stack = vmAdd.stack ∧ vm'.call_stack = vmAdd.call_stack) ∧
    (vmAdd.reg 3 = some (.struct 2 []) ∧ is_vm_type_int (.struct 2 []) = false ∧
      INDLoad.execute 3 vmAdd = some ⟨.ok true, { vmAdd with pc := vmAdd.pc + 1 }⟩) :=
  ⟨⟨by decide, (INDLoad_never_errors vmAdd 2).1
      ⟨.ok true, { vmAdd with registers := [vint 3, vint 3, vint 1, .struct 2 []], pc := 4 }⟩
      (by decide)⟩,
    ⟨by decide, by decide, by decide,
      (INDLoad_never_errors vmAdd 2).2.1 1 (by decide) (by decide) (by decide)⟩,
    ⟨by decide, by decide, (INDLoad_never_errors vmAdd 3).2.2 (.struct 2 []) (by decide) (by decide)⟩⟩

/-! ## CallNative -/

/-- C19: for every machine state whose operand stack is non-empty with a top
value that `to_string` rejects (a struct), Print fails with TypeMismatch, pc
is unchanged, nothing is written to the output, the registers are unchanged,
and the operand stack is the original stack without its top element. -/
theorem Print_pop_not_restored (vm : VM) (capacity : Nat) (fields rest : List VMType)
    (h : vm.stack = .struct capacity fields :: rest) :
    ∃ vm', Print.execute vm = some ⟨.err .TypeMismatch, vm'⟩ ∧
      vm'.pc = vm.pc ∧ vm'.output = vm.output ∧ vm'.registers = vm.registers ∧
      vm'.stack = rest ∧ vm'.call_stack = vm.call_stack := by
  refine ⟨{ vm with stack := rest }, ?_, rfl, rfl, rfl, rfl, rfl⟩
  simp [Print.execute, VM.stack_top, VM.stack_pop, h, to_string]

/-- Witness of C19: a struct on top of the integer 4. -/
theorem Print_pop_not_restored_witness :
    (vmStructTop.stack = .struct 1 [vint 2] :: [vint 4] ∧
      ∃ vm', Print.execute vmStructTop = some ⟨.err .TypeMismatch, vm'⟩ ∧
        vm'.pc = vmStructTop.pc ∧ vm'.output = vmStructTop.output ∧
        vm'.registers = vmStructTop.registers ∧
        vm'.stack = [vint 4] ∧ vm'.call_stack = vmStructTop.call_stack) ∧
    Print.execute vmStructTop = some ⟨.err .TypeMismatch, { vmStructTop with stack := [vint 4] }⟩ :=
  ⟨⟨by decide, Print_pop_not_restored vmStructTop 1 [vint 2] [vint 4] (by decide)⟩, by decide⟩

/-- C20: SLoad ignores its register operand: SLoad(i) and SLoad(j) have the
same outcome on every machine state.  With a non-empty operand stack (and a
register 0 to load into) the outcome is a success with reg0 equal to the
former stack top, the stack without its top, pc advanced by one and every
register other than reg0 unchanged, whatever i is. -/
theorem SLoad_ignores_operand (vm : VM) (i j : Nat) :
    SLoad.execute i vm = SLoad.execute j vm ∧
    (∀ v rest, vm.stack = v :: rest → 0 < vm.registers.length →
      ∃ vm', SLoad.execute i vm = some ⟨.ok true, vm'⟩ ∧
        vm'.registers[0]? = some v ∧ vm'.stack = rest ∧ vm'.pc = vm.pc + 1 ∧
        (∀ k, k ≠ 0 → vm'.registers[k]? = vm.registers[k]?) ∧
        vm'.registers.length = vm.registers.length ∧
        vm'.call_stack = vm.call_stack) := by
  refine ⟨rfl, ?_⟩
  intro v rest hs hlen
  refine ⟨{ vm with registers := vm.registers.set 0 v, stack := rest, pc := vm.pc + 1 },
    ?_, ?_, rfl, rfl, ?_, ?_, rfl⟩
  · simp [SLoad.execute, VM.stack_top, VM.stack_pop, hs, VM.set_reg, hlen, VM.inc_pc]
  · simp [List.getElem?_set, hlen]
  · intro k hk
    simp [List.getElem?_set, Ne.symm hk]
  · simp

/-- Witness of C20: on the stack [8], SLoad(3) and SLoad(1) both load 8 into
reg0 and leave registers 1 to 3 as they were. -/
theorem SLoad_ignores_operand_witness :
    SLoad.execute 3 vmAdd = SLoad.execute 1 vmAdd ∧
    (vmAdd.stack = vint 8 :: [] ∧ 0 < vmAdd.registers.length ∧
      ∃ vm', SLoad.execute 3 vmAdd = some ⟨.ok true, vm'⟩ ∧
        vm'.registers[0]? = some (vint 8) ∧ vm'.stack = [] ∧ vm'.pc = vmAdd.pc + 1 ∧
        (∀ k, k ≠ 0 → vm'.registers[k]? = vmAdd.registers[k]?) ∧
        vm'.registers.length = vmAdd.registers.length ∧
        vm'.call_stack = vmAdd.call_stack) ∧
    SLoad.execute 3 vmAdd = some ⟨.ok true,
      { vmAdd with registers := [vint 8, vint 3, vint 1, .struct 2 []], stack := [], pc := 4 }⟩ :=
  ⟨(SLoad_ignores_operand vmAdd 3 1).1,
    ⟨by decide, by decide, (SLoad_ignores_operand vmAdd 3 1).2 (vint 8) [] (by decide) (by decide)⟩,
    by decide⟩

/-! ## Errors and the program counter -/

/-- Writing a register leaves pc as it was. -/
theorem VM.set_reg_pc (vm vm1 : VM) (i : Nat) (v : VMType) (h : vm.set_reg i v = some vm1) :
    vm1.pc = vm.pc := by
  unfold VM.set_reg at h
  split at h
  · cases h
    rfl
  · cases h

/-- A Call that fails leaves pc as it was. -/
theorem Call.call_error_pc (fname : VMType) (vm : VM) (out : Outcome) (e : VMError)
    (h : Call.execute fname vm = some out) (he : out.result = .err e) : out.vm.pc = vm.pc := by
  unfold Call.execute at h
  simp only at h
  split at h
  · cases h
    rfl
  · split at h
    · cases h
      rfl
    · split at h
      · cases h
      · cases h
        rfl
      · cases h
        cases he

/-- Every instruction kind other than INDStore and CallNative leaves pc as it
was when it fails (CallNative hands on the failure of the host callable
together with whatever pc the callable left). -/
theorem execute_error_pc (natives : List (String × NativeFunctionEntry)) (instruction : Instruction)
    (vm : VM) (out : Outcome) (e : VMError)
    (h : execute natives instruction vm = some out) (he : out.result = .err e)
    (h1 : ∀ i, instruction ≠ .INDStore i) (h2 : ∀ f, instruction ≠ .CallNative f) :
    out.vm.pc = vm.pc := by
  cases instruction with
  | INDStore i => exact absurd rfl (h1 i)
  | CallNative f => exact absurd rfl (h2 f)
  | Call f => exact Call.call_error_pc f vm out e h he
  | Load i =>
    simp only [execute, Load.execute, Option.bind_eq_bind, Option.bind_eq_some] at h
    obtain ⟨v, -, vm1, -, h⟩ := h
    cases h
    cases he
  | CLoad v =>
    simp only [execute, CLoad.execute, Option.bind_eq_bind, Option.bind_eq_some] at h
    obtain ⟨vm1, -, h⟩ := h
    cases h
    cases he
  | Store i =>
    simp only [execute, Store.execute, Option.bind_eq_bind, Option.bind_eq_some] at h
    obtain ⟨v, -, vm1, -, h⟩ := h
    cases h
    cases he
  | StructCreate i sz =>
    simp only [execute, StructCreate.execute, Option.bind_eq_bind, Option.bind_eq_some] at h
    obtain ⟨vm1, -, h⟩ := h
    cases h
    cases he
  | Goto i => cases h; cases he
  | Halt => cases h; cases he
  | Push v => cases h; cases he
  | Pop =>
    simp only [execute, Pop.execute] at h
    split at h <;> cases h
    · rfl
    · cases he
  | RetVoid =>
    simp only [execute, RetVoid.execute] at h
    split at h <;> cases h
    · rfl
    · cases he
  | Return i =>
    simp only [execute, Return.execute, Option.bind_eq_bind, Option.bind_eq_some] at h
    obtain ⟨v, -, h⟩ := h
    split at h <;> cases h
    · rfl
    · cases he
  | Print =>
    simp only [execute, Print.execute] at h
    split at h
    · cases h; rfl
    · split at h
      · cases h; rfl
      · rename_i vm1 hpop
        have hpc : vm1.pc = vm.pc := by
          unfold VM.stack_pop at hpop
          split at hpop <;> cases hpop
          rfl
        split at h <;> cases h
        · cases he
        · exact hpc
  | INDLoad i =>
    simp only [execute, INDLoad.execute, Option.bind_eq_bind, Option.bind_eq_some] at h
    obtain ⟨ri, -, h⟩ := h
    split at h
    · simp only [Option.bind_eq_some] at h
      obtain ⟨v, -, vm1, -, h⟩ := h
      cases h
      cases he
    · cases h
      cases he
  | SLoad i =>
    simp only [execute, SLoad.execute] at h
    split at h
    · cases h; rfl
    · simp only [Option.bind_eq_bind, Option.bind_eq_some] at h
      obtain ⟨vm1, hset, h⟩ := h
      have hpc := VM.set_reg_pc vm vm1 0 _ hset
      split at h <;> cases h
      · exact hpc
      · cases he
  | Add i =>
    simp only [execute, Add.execute, Option.bind_eq_bind, Option.bind_eq_some] at h
    obtain ⟨r0, -, ri, -, h⟩ := h
    split at h
    · simp only [Option.bind_eq_some] at h
      obtain ⟨vm1, -, h⟩ := h
      cases h
      cases he
    · cases h; rfl
  | CAdd v =>
    simp only [execute, CAdd.execute, Option.bind_eq_bind, Option.bind_eq_some] at h
    obtain ⟨r0, -, h⟩ := h
    split at h
    · simp only [Option.bind_eq_some] at h
      obtain ⟨vm1, -, h⟩ := h
      cases h
      cases he
    · cases h; rfl
  | INDAdd i =>
    simp only [execute, INDAdd.execute, Option.bind_eq_bind, Option.bind_eq_some] at h
    obtain ⟨ri, -, h⟩ := h
    split at h
    · simp only [Option.bind_eq_some] at h
      obtain ⟨r0, -, rk, -, h⟩ := h
      split at h
      · simp only [Option.bind_eq_some] at h
        obtain ⟨vm1, -, h⟩ := h
        cases h
        cases he
      · cases h; rfl
    · cases h; rfl
  | If c v t =>
    simp only [execute, If.execute, Option.bind_eq_bind, Option.bind_eq_some] at h
    obtain ⟨r0, -, h⟩ := h
    split at h
    · split at h <;> cases h <;> cases he
    · cases h; rfl
  | PrintRegStructField i adr =>
    simp only [execute, PrintRegStructField.execute, Option.bind_eq_bind,
      Option.bind_eq_some] at h
    obtain ⟨ri, -, h⟩ := h
    split at h
    · split at h
      · cases h; rfl
      · split at h <;> cases h
        · cases he
        · rfl
      · cases h; rfl
    · cases h; rfl
  | AddField i t =>
    simp only [execute, AddField.execute, Option.bind_eq_bind, Option.bind_eq_some] at h
    obtain ⟨ri, -, h⟩ := h
    split at h
    · simp only [Option.bind_eq_some] at h
      obtain ⟨vm1, -, h⟩ := h
      cases h
      cases he
    · cases h; rfl
  | SetField i adr t =>
    simp only [execute, SetField.execute, Option.bind_eq_bind, Option.bind_eq_some] at h
    obtain ⟨ri, -, h⟩ := h
    split at h
    · split at h
      · cases h; rfl
      · simp only [Option.bind_eq_some] at h
        obtain ⟨vm1, -, h⟩ := h
        cases h
        cases he
    · cases h; rfl

end Palladium
